import Mathlib

/-!
The trace-correlating zap core of zaptelemetry (`src/logger/core.go`).

A shallow embedding of `zapCtxCore`, the `zapcore.Core` that wraps another core and a
`context.Context`.  The wrapped core and the trace span are interfaces of external libraries
(zap, OpenTelemetry); they are embedded as follows.

* The wrapped `zapcore.Core` is a parameter: a `Backend κ β`, where `κ` names the cores on the
  backend side (a core and the cores its `With` derives) and `β` is the backend's own mutable
  state.  `Check`, `Write` and `Sync` are state transformers; every invocation the adapter makes
  is also appended to a log of calls (`World.calls`), so that "invoked exactly once" and
  "never invoked" are statements about that log.  `Enabled` is a query of the backend state
  (a level filter is deterministic and has no effect), and `With` is a function from a core and
  fields to the derived core.
* A span is the list of `AddEvent` / `SetStatus` calls it has received, plus what `IsRecording`
  and `SpanContext` answer.  Its events are the `AddEvent` calls, and its status is the
  `SetStatus` requests applied in order by the rule of the OpenTelemetry SDK (a request below
  the current status is ignored, `Ok` above `Error` above `Unset`).  Spans live in a heap
  indexed by `SpanRef`.
* A Go `error` is `Option String`; `nil` is `none`.
-/

namespace logger

/-! ## zapcore data -/

/-- A `zapcore.Level` (an `int8` in Go). -/
abbrev Level := Int

def DebugLevel : Level := -1
def InfoLevel : Level := 0
def WarnLevel : Level := 1
def ErrorLevel : Level := 2
def DPanicLevel : Level := 3
def PanicLevel : Level := 4
def FatalLevel : Level := 5

/-- The method `zapcore.Level.String`: the lower-case name of a level. -/
def Level.String (l : Level) : String :=
  if l = DebugLevel then "debug"
  else if l = InfoLevel then "info"
  else if l = WarnLevel then "warn"
  else if l = ErrorLevel then "error"
  else if l = DPanicLevel then "dpanic"
  else if l = PanicLevel then "panic"
  else if l = FatalLevel then "fatal"
  else "Level(" ++ toString l ++ ")"

/-- A `zapcore.EntryCaller`. -/
structure EntryCaller where
  Defined : Bool
  PC : Nat
  File : String
  Line : Int
  Function : String
deriving DecidableEq, Repr

/-- A `zapcore.Entry`: the record being logged, without its fields. -/
structure Entry where
  Level : Level
  Time : Int
  LoggerName : String
  Message : String
  Caller : EntryCaller
  Stack : String
deriving DecidableEq, Repr

/-- A `zapcore.FieldType` (a `uint8` in Go). -/
abbrev FieldType := Nat

/-- The constant `zapcore.StringType`, the sixteenth value of the enumeration. -/
def StringType : FieldType := 15

/-- A `zapcore.Field` (without the `Interface` payload, which string fields leave nil). -/
structure Field where
  Key : String
  Type_ : FieldType
  Integer : Int
  String : String
deriving DecidableEq, Repr

/-- The constructor `zap.String(key, val)`. -/
def zap.String (key val : String) : Field :=
  { Key := key, Type_ := StringType, Integer := 0, String := val }

def traceIDKey : String := "traceId"
def spanIDKey : String := "spanId"

/-! ## OpenTelemetry data -/

/-- One lower-case hexadecimal digit. -/
def hexDigit (n : Nat) : Char :=
  "0123456789abcdef".toList.getD (n % 16) '0'

/-- The function `hex.EncodeToString`: two lower-case digits per byte, high nibble first. -/
def hexEncode (bytes : List Nat) : String :=
  String.mk (bytes.flatMap fun b => [hexDigit (b / 16), hexDigit b])

/-- A `trace.TraceID` (sixteen bytes). -/
structure TraceID where
  bytes : List Nat
deriving DecidableEq, Repr

/-- A `trace.SpanID` (eight bytes). -/
structure SpanID where
  bytes : List Nat
deriving DecidableEq, Repr

def TraceID.String (t : TraceID) : String := hexEncode t.bytes
def SpanID.String (s : SpanID) : String := hexEncode s.bytes

/-- A `trace.SpanContext`, as far as the adapter reads it. -/
structure SpanContext where
  TraceID : TraceID
  SpanID : SpanID
deriving DecidableEq, Repr

/-- A `codes.Code`. -/
inductive Code where
  | Unset
  | Error
  | Ok
deriving DecidableEq, Repr

/-- An `attribute.Value`. -/
inductive AttrValue where
  | BOOL (b : Bool)
  | INT64 (i : Int)
  | STRING (s : String)
deriving DecidableEq, Repr

/-- An `attribute.KeyValue`. -/
structure KeyValue where
  Key : String
  Value : AttrValue
deriving DecidableEq, Repr

/-- The expression `attribute.Key(k).String(v)`. -/
def attribute.Key.String (k v : String) : KeyValue :=
  { Key := k, Value := AttrValue.STRING v }

/-- A `trace.EventOption`. -/
inductive EventOption where
  | WithAttributes (attrs : List KeyValue)
  | WithTimestamp (t : Int)
  | WithStackTrace (b : Bool)
deriving DecidableEq, Repr

/-- A call received by a span through the two mutating methods the adapter uses. -/
inductive SpanCall where
  | AddEvent (name : String) (options : List EventOption)
  | SetStatus (code : Code) (description : String)
deriving DecidableEq, Repr

/-- The state of a `trace.Span`: the answers of `IsRecording` and `SpanContext`, and the calls
received so far, oldest first. -/
structure Span where
  recording : Bool
  spanContext : SpanContext
  calls : List SpanCall
deriving DecidableEq, Repr

/-- An event of a span: its name, its attributes and the timestamp override, if any. -/
structure Event where
  Name : String
  Attributes : List KeyValue
  Time : Option Int
deriving DecidableEq, Repr

/-- The attributes a list of event options carries. -/
def optionAttributes : List EventOption → List KeyValue
  | [] => []
  | EventOption.WithAttributes attrs :: rest => attrs ++ optionAttributes rest
  | _ :: rest => optionAttributes rest

/-- The timestamp override a list of event options carries (the last one given). -/
def optionTimestamp : List EventOption → Option Int
  | [] => none
  | EventOption.WithTimestamp t :: rest => (optionTimestamp rest).orElse fun _ => some t
  | _ :: rest => optionTimestamp rest

/-- The event an `AddEvent` call appends; `none` for a `SetStatus` call. -/
def SpanCall.event? : SpanCall → Option Event
  | SpanCall.AddEvent name options =>
      some { Name := name, Attributes := optionAttributes options, Time := optionTimestamp options }
  | SpanCall.SetStatus _ _ => none

/-- The status a `SetStatus` call asks for; `none` for an `AddEvent` call. -/
def SpanCall.status? : SpanCall → Option (Code × String)
  | SpanCall.AddEvent _ _ => none
  | SpanCall.SetStatus code description => some (code, description)

/-- The events appended to a span, in order. -/
def Span.events (s : Span) : List Event := s.calls.filterMap SpanCall.event?

/-- The `SetStatus` requests a span received, in order. -/
def Span.statusCalls (s : Span) : List (Code × String) := s.calls.filterMap SpanCall.status?

/-- The numeric value of a `codes.Code`: `Unset` is 0, `Error` is 1, `Ok` is 2. -/
def Code.rank : Code → Nat
  | Code.Unset => 0
  | Code.Error => 1
  | Code.Ok => 2

/-- The effect of one `SetStatus(code, description)` on the status of a recording span, as the
OpenTelemetry SDK implements it: a request whose code is below the current one is ignored;
otherwise the code is taken, and the description is kept only for `Error`. -/
def applyStatus (current : Code × String) (request : Code × String) : Code × String :=
  if current.1.rank > request.1.rank then current
  else (request.1, if request.1 = Code.Error then request.2 else "")

/-- The status of a span: the `SetStatus` requests it received applied in order, starting from
the unset status. -/
def Span.status (s : Span) : Code × String := s.statusCalls.foldl applyStatus (Code.Unset, "")

/-- A reference to a span in the heap. -/
abbrev SpanRef := Nat

/-- A `context.Context`, as far as `trace.SpanFromContext` reads it: the span it carries, if
any. -/
structure Context where
  span : Option SpanRef
deriving DecidableEq, Repr

/-! ## The wrapped core and the adapter -/

/-- A Go `error`; `none` is `nil`. -/
abbrev GoError := Option String

/-- The struct `zapCtxCore`: the wrapped core and the context, which may be nil. -/
structure zapCtxCore (κ : Type) where
  core : κ
  context : Option Context
deriving DecidableEq, Repr

/-- A core registered on a `zapcore.CheckedEntry`: a core of the backend side or an adapter. -/
inductive RegCore (κ : Type) where
  | backend (k : κ)
  | adapter (zcc : zapCtxCore κ)
deriving DecidableEq, Repr

/-- A `zapcore.CheckedEntry`: the entry and the cores that agreed to write it. -/
structure CheckedEntry (κ : Type) where
  Entry : Entry
  cores : List (RegCore κ)
deriving DecidableEq, Repr

/-- The method `(*CheckedEntry).AddCore`: a nil receiver is replaced by a fresh checked entry
for `ent`; the core is appended. -/
def AddCore {κ : Type} (ce : Option (CheckedEntry κ)) (ent : Entry) (core : RegCore κ) :
    CheckedEntry κ :=
  match ce with
  | none => { Entry := ent, cores := [core] }
  | some ce => { ce with cores := ce.cores ++ [core] }

/-- The behaviour of the wrapped `zapcore.Core` and of the cores its `With` derives. -/
structure Backend (κ β : Type) where
  Enabled : κ → Level → β → Bool
  With : κ → List Field → κ
  Check : κ → Entry → Option (CheckedEntry κ) → β → Option (CheckedEntry κ) × β
  Write : κ → Entry → List Field → β → GoError × β
  Sync : κ → β → GoError × β

/-- An invocation of a state-changing method of a backend core. -/
inductive BackendCall (κ : Type) where
  | Check (k : κ) (entry : Entry) (checked : Option (CheckedEntry κ))
  | Write (k : κ) (entry : Entry) (fields : List Field)
  | Sync (k : κ)
deriving DecidableEq, Repr

/-- Everything the adapter can change: the backend's state, the log of the invocations made on
backend cores (oldest first), and the spans. -/
structure World (κ β : Type) where
  backend : β
  calls : List (BackendCall κ)
  spans : SpanRef → Span

/-- The call `k.Check(entry, checked)` on a backend core. -/
def callCheck {κ β : Type} (B : Backend κ β) (k : κ) (entry : Entry)
    (checked : Option (CheckedEntry κ)) (w : World κ β) : Option (CheckedEntry κ) × World κ β :=
  let r := B.Check k entry checked w.backend
  (r.1, { w with backend := r.2, calls := w.calls ++ [BackendCall.Check k entry checked] })

/-- The call `k.Write(entry, fields)` on a backend core. -/
def callWrite {κ β : Type} (B : Backend κ β) (k : κ) (entry : Entry) (fields : List Field)
    (w : World κ β) : GoError × World κ β :=
  let r := B.Write k entry fields w.backend
  (r.1, { w with backend := r.2, calls := w.calls ++ [BackendCall.Write k entry fields] })

/-- The call `k.Sync()` on a backend core. -/
def callSync {κ β : Type} (B : Backend κ β) (k : κ) (w : World κ β) : GoError × World κ β :=
  let r := B.Sync k w.backend
  (r.1, { w with backend := r.2, calls := w.calls ++ [BackendCall.Sync k] })

/-- The function `trace.SpanFromContext`: the span the context carries; `none` stands for the
no-op span returned when it carries none. -/
def SpanFromContext (ctx : Context) : Option SpanRef := ctx.span

/-- The method `Span.IsRecording`; the no-op span is not recording. -/
def IsRecording {κ β : Type} (span : Option SpanRef) (w : World κ β) : Bool :=
  match span with
  | none => false
  | some r => (w.spans r).recording

/-- The method `Span.SpanContext`; the no-op span answers the zero span context. -/
def SpanContextOf {κ β : Type} (span : Option SpanRef) (w : World κ β) : SpanContext :=
  match span with
  | none => { TraceID := { bytes := List.replicate 16 0 }, SpanID := { bytes := List.replicate 8 0 } }
  | some r => (w.spans r).spanContext

/-- A mutating call on a span: it is appended to the calls the span received; the no-op span
ignores it. -/
def callSpan {κ β : Type} (span : Option SpanRef) (c : SpanCall) (w : World κ β) : World κ β :=
  match span with
  | none => w
  | some r =>
    let s := w.spans r
    let s := { recording := s.recording, spanContext := s.spanContext, calls := s.calls ++ [c] }
    { backend := w.backend, calls := w.calls, spans := Function.update w.spans r s }

/-- The method `Span.AddEvent`. -/
def AddEvent {κ β : Type} (span : Option SpanRef) (name : String) (options : List EventOption)
    (w : World κ β) : World κ β :=
  callSpan span (SpanCall.AddEvent name options) w

/-- The method `Span.SetStatus`. -/
def SetStatus {κ β : Type} (span : Option SpanRef) (code : Code) (description : String)
    (w : World κ β) : World κ β :=
  callSpan span (SpanCall.SetStatus code description) w

/-- The method `zapCtxCore.Enabled`: the wrapped core's answer. -/
def zapCtxCore.Enabled {κ β : Type} (B : Backend κ β) (zcc : zapCtxCore κ) (level : Level)
    (w : World κ β) : Bool :=
  B.Enabled zcc.core level w.backend

/-- The method `zapCtxCore.Check`. -/
def zapCtxCore.Check {κ β : Type} (B : Backend κ β) (zcc : zapCtxCore κ) (entry : Entry)
    (checked : Option (CheckedEntry κ)) (w : World κ β) : Option (CheckedEntry κ) × World κ β :=
  if zcc.Enabled B entry.Level w then
    (some (AddCore checked entry (RegCore.adapter zcc)), w)
  else
    callCheck B zcc.core entry checked w

/-- The method `zapCtxCore.Sync`. -/
def zapCtxCore.Sync {κ β : Type} (B : Backend κ β) (zcc : zapCtxCore κ) (w : World κ β) :
    GoError × World κ β :=
  callSync B zcc.core w

/-- The method `zapCtxCore.With`. -/
def zapCtxCore.With {κ β : Type} (B : Backend κ β) (zcc : zapCtxCore κ) (fields : List Field) :
    zapCtxCore κ :=
  let newCore := B.With zcc.core fields
  { core := newCore, context := zcc.context }

/-- The method `zapCtxCore.Write`. -/
def zapCtxCore.Write {κ β : Type} (B : Backend κ β) (zcc : zapCtxCore κ) (entry : Entry)
    (fields : List Field) (w : World κ β) : GoError × World κ β :=
  match zcc.context with
  | none => callWrite B zcc.core entry fields w
  | some ctx =>
    let span := SpanFromContext ctx
    if !IsRecording span w then
      (none, w)
    else
      let spanCtx := SpanContextOf span w
      let fields := fields ++ [zap.String traceIDKey spanCtx.TraceID.String]
      let fields := fields ++ [zap.String spanIDKey spanCtx.SpanID.String]
      let logSeverityAttrKey := attribute.Key.String "log.severity" entry.Level.String
      let logMessageAttrKey := attribute.Key.String "log.message" entry.Message
      let w := AddEvent span "log"
        [EventOption.WithAttributes [logSeverityAttrKey, logMessageAttrKey]] w
      let w := if entry.Level ≥ ErrorLevel then SetStatus span Code.Error entry.Message w else w
      callWrite B zcc.core entry fields w

/-! ## Logging through the adapter -/

/-- The call `core.Write(entry, fields)` on a registered core. -/
def RegCore.Write {κ β : Type} (B : Backend κ β) (c : RegCore κ) (entry : Entry)
    (fields : List Field) (w : World κ β) : GoError × World κ β :=
  match c with
  | RegCore.backend k => callWrite B k entry fields w
  | RegCore.adapter zcc => zcc.Write B entry fields w

/-- The loop of `(*CheckedEntry).Write`: every registered core writes the entry, in the order
of registration. -/
def writeCores {κ β : Type} (B : Backend κ β) (cores : List (RegCore κ)) (entry : Entry)
    (fields : List Field) (w : World κ β) : World κ β :=
  match cores with
  | [] => w
  | c :: rest => writeCores B rest entry fields (c.Write B entry fields w).2

/-- The method `(*CheckedEntry).Write`; a nil checked entry writes nothing. -/
def CheckedEntry.Write {κ β : Type} (B : Backend κ β) (ce : Option (CheckedEntry κ))
    (fields : List Field) (w : World κ β) : World κ β :=
  match ce with
  | none => w
  | some ce => writeCores B ce.cores ce.Entry fields w

/-- Logging one record through the adapter: `Check` on a nil checked entry, then `Write` on
every core that was registered (what a `zap.Logger` built on the adapter does once it asks the
core to check the record). -/
def logThrough {κ β : Type} (B : Backend κ β) (zcc : zapCtxCore κ) (entry : Entry)
    (fields : List Field) (w : World κ β) : World κ β :=
  let r := zcc.Check B entry none w
  CheckedEntry.Write B r.1 fields r.2

/-- A sequence of `Write` calls on one adapter, in order; the results are collected. -/
def writeAll {κ β : Type} (B : Backend κ β) (zcc : zapCtxCore κ) :
    List (Entry × List Field) → World κ β → List GoError × World κ β
  | [], w => ([], w)
  | rec :: rest, w =>
    let r := zcc.Write B rec.1 rec.2 w
    let rs := writeAll B zcc rest r.2
    (r.1 :: rs.1, rs.2)

/-- The `Write` invocations of a log of backend calls, in order. -/
def writesOf {κ : Type} (calls : List (BackendCall κ)) : List (κ × Entry × List Field) :=
  calls.filterMap fun c =>
    match c with
    | BackendCall.Write k entry fields => some (k, entry, fields)
    | _ => none

/-! ## Concrete backends, spans and records -/

/-- A counting stub backend.  A core is named by the fields bound to it; the state counts the
writes.  Levels from `info` upwards are enabled, `Check` registers the core exactly for those,
and the third and later writes fail. -/
def stubBackend : Backend (List Field) Nat where
  Enabled := fun _ level _ => decide (level ≥ InfoLevel)
  With := fun k fields => k ++ fields
  Check := fun k entry checked b =>
    if entry.Level ≥ InfoLevel then (some (AddCore checked entry (RegCore.backend k)), b)
    else (checked, b)
  Write := fun _ _ _ b => (if b ≥ 2 then some "disk full" else none, b + 1)
  Sync := fun _ b => (if b ≥ 3 then some "sync failed" else none, b)

/-- A backend whose level filter rejects every level but whose `Check` registers the core all
the same. -/
def eagerBackend : Backend Unit Nat where
  Enabled := fun _ _ _ => false
  With := fun k _ => k
  Check := fun k entry checked b => (some (AddCore checked entry (RegCore.backend k)), b)
  Write := fun _ _ _ b => (none, b + 1)
  Sync := fun _ b => (none, b)

def sampleSpanContext : SpanContext :=
  { TraceID := { bytes := [0xab, 0xcd, 0, 1, 2, 3, 4, 5, 6, 7, 8, 9, 10, 11, 12, 13] },
    SpanID := { bytes := [0x12, 0x34, 0, 1, 2, 3, 4, 5] } }

/-- A heap in which span `0` is recording and every other span is not. -/
def sampleSpans (r : SpanRef) : Span :=
  { recording := decide (r = 0), spanContext := sampleSpanContext, calls := [] }

/-- A heap in which span `0` is recording and has already been given the status `Ok`. -/
def settledSpans (r : SpanRef) : Span :=
  { recording := decide (r = 0), spanContext := sampleSpanContext,
    calls := if r = 0 then [SpanCall.SetStatus Code.Ok ""] else [] }

/-- A world in which the stub backend has made `n` writes. -/
def sampleWorld (n : Nat) : World (List Field) Nat :=
  { backend := n, calls := [], spans := sampleSpans }

def sampleEntry (level : Level) (message : String) : Entry :=
  { Level := level, Time := 0, LoggerName := "", Message := message,
    Caller := { Defined := false, PC := 0, File := "", Line := 0, Function := "" }, Stack := "" }

/-- An adapter bound to a context carrying span `0`. -/
def tracedCore : zapCtxCore (List Field) := { core := [], context := some { span := some 0 } }

/-- An adapter bound to a context carrying span `1`, which is not recording. -/
def idleCore : zapCtxCore (List Field) := { core := [], context := some { span := some 1 } }

/-- An adapter bound to a context that carries no span. -/
def spanlessCore : zapCtxCore (List Field) := { core := [], context := some { span := none } }

/-- An adapter constructed with a nil context. -/
def plainCore : zapCtxCore (List Field) := { core := [], context := none }

/-! ## Lemmas on the embedding -/

theorem callSpan_backend {κ β : Type} (r : SpanRef) (c : SpanCall) (w : World κ β) :
    (callSpan (some r) c w).backend = w.backend := rfl

theorem callSpan_calls {κ β : Type} (r : SpanRef) (c : SpanCall) (w : World κ β) :
    (callSpan (some r) c w).calls = w.calls := rfl

theorem callSpan_spans_same {κ β : Type} (r : SpanRef) (c : SpanCall) (w : World κ β) :
    (callSpan (some r) c w).spans r =
      { recording := (w.spans r).recording, spanContext := (w.spans r).spanContext,
        calls := (w.spans r).calls ++ [c] } := by
  simp [callSpan]

theorem callSpan_spans_other {κ β : Type} (r r' : SpanRef) (c : SpanCall) (w : World κ β)
    (h : r' ≠ r) : (callSpan (some r) c w).spans r' = w.spans r' := by
  simp [callSpan, Function.update, h]

/-- With a nil context, `Write` is the wrapped core's `Write` on the same arguments. -/
theorem Write_nil {κ β : Type} (B : Backend κ β) (zcc : zapCtxCore κ) (entry : Entry)
    (fields : List Field) (w : World κ β) (hctx : zcc.context = none) :
    zcc.Write B entry fields w = callWrite B zcc.core entry fields w := by
  simp [zapCtxCore.Write, hctx]

/-- With a context whose span is absent or not recording, `Write` does nothing. -/
theorem Write_idle {κ β : Type} (B : Backend κ β) (zcc : zapCtxCore κ) (ctx : Context)
    (entry : Entry) (fields : List Field) (w : World κ β) (hctx : zcc.context = some ctx)
    (hidle : ∀ r, ctx.span = some r → (w.spans r).recording = false) :
    zcc.Write B entry fields w = (none, w) := by
  cases hs : ctx.span with
  | none => simp [zapCtxCore.Write, hctx, SpanFromContext, hs, IsRecording]
  | some r => simp [zapCtxCore.Write, hctx, SpanFromContext, hs, IsRecording, hidle r hs]

/-- With a context whose span is recording, `Write` adds the event, sets the status for the
levels from `error` upwards, and calls the wrapped core's `Write` with the two fields added. -/
theorem Write_recording {κ β : Type} (B : Backend κ β) (zcc : zapCtxCore κ) (ctx : Context)
    (r : SpanRef) (entry : Entry) (fields : List Field) (w : World κ β)
    (hctx : zcc.context = some ctx) (hspan : ctx.span = some r)
    (hrec : (w.spans r).recording = true) :
    zcc.Write B entry fields w =
      callWrite B zcc.core entry
        (fields ++ [{ Key := "traceId", Type_ := StringType, Integer := 0,
                      String := hexEncode (w.spans r).spanContext.TraceID.bytes },
                    { Key := "spanId", Type_ := StringType, Integer := 0,
                      String := hexEncode (w.spans r).spanContext.SpanID.bytes }])
        (if entry.Level ≥ ErrorLevel then
          callSpan (some r) (SpanCall.SetStatus Code.Error entry.Message)
            (callSpan (some r) (SpanCall.AddEvent "log"
              [EventOption.WithAttributes
                [{ Key := "log.severity", Value := AttrValue.STRING entry.Level.String },
                 { Key := "log.message", Value := AttrValue.STRING entry.Message }]]) w)
        else
          callSpan (some r) (SpanCall.AddEvent "log"
            [EventOption.WithAttributes
              [{ Key := "log.severity", Value := AttrValue.STRING entry.Level.String },
               { Key := "log.message", Value := AttrValue.STRING entry.Message }]]) w) := by
  simp [zapCtxCore.Write, hctx, SpanFromContext, hspan, IsRecording, hrec, SpanContextOf,
    zap.String, traceIDKey, spanIDKey, TraceID.String, SpanID.String, attribute.Key.String,
    AddEvent, SetStatus]

/-- The calls a recording span has received after one `Write`. -/
theorem Write_recording_span {κ β : Type} (B : Backend κ β) (zcc : zapCtxCore κ) (ctx : Context)
    (r : SpanRef) (entry : Entry) (fields : List Field) (w : World κ β)
    (hctx : zcc.context = some ctx) (hspan : ctx.span = some r)
    (hrec : (w.spans r).recording = true) :
    (zcc.Write B entry fields w).2.spans r =
      { recording := true, spanContext := (w.spans r).spanContext,
        calls := (w.spans r).calls ++
          (SpanCall.AddEvent "log"
            [EventOption.WithAttributes
              [{ Key := "log.severity", Value := AttrValue.STRING entry.Level.String },
               { Key := "log.message", Value := AttrValue.STRING entry.Message }]] ::
           if entry.Level ≥ ErrorLevel then [SpanCall.SetStatus Code.Error entry.Message]
           else []) } := by
  rw [Write_recording B zcc ctx r entry fields w hctx hspan hrec]
  by_cases hlvl : entry.Level ≥ ErrorLevel <;> simp [hlvl, callWrite, callSpan, hrec]

/-- One `Write` leaves every span other than the one of its context as it was. -/
theorem Write_recording_span_other {κ β : Type} (B : Backend κ β) (zcc : zapCtxCore κ)
    (ctx : Context) (r r' : SpanRef) (entry : Entry) (fields : List Field) (w : World κ β)
    (hctx : zcc.context = some ctx) (hspan : ctx.span = some r)
    (hrec : (w.spans r).recording = true) (hne : r' ≠ r) :
    (zcc.Write B entry fields w).2.spans r' = w.spans r' := by
  rw [Write_recording B zcc ctx r entry fields w hctx hspan hrec]
  by_cases hlvl : entry.Level ≥ ErrorLevel <;>
    simp [hlvl, callWrite, callSpan, Function.update, hne]

/-- The backend calls logged after one `Write` on a recording span. -/
theorem Write_recording_calls {κ β : Type} (B : Backend κ β) (zcc : zapCtxCore κ) (ctx : Context)
    (r : SpanRef) (entry : Entry) (fields : List Field) (w : World κ β)
    (hctx : zcc.context = some ctx) (hspan : ctx.span = some r)
    (hrec : (w.spans r).recording = true) :
    (zcc.Write B entry fields w).2.calls =
      w.calls ++ [BackendCall.Write zcc.core entry
        (fields ++ [{ Key := "traceId", Type_ := StringType, Integer := 0,
                      String := hexEncode (w.spans r).spanContext.TraceID.bytes },
                    { Key := "spanId", Type_ := StringType, Integer := 0,
                      String := hexEncode (w.spans r).spanContext.SpanID.bytes }])] := by
  rw [Write_recording B zcc ctx r entry fields w hctx hspan hrec]
  by_cases hlvl : entry.Level ≥ ErrorLevel <;> simp [hlvl, callWrite, callSpan]

/-- Every `Write` either does nothing and returns nil, or ends in exactly one call of the
wrapped core's `Write`, made on the backend state and after the backend calls it started from. -/
theorem Write_cases {κ β : Type} (B : Backend κ β) (zcc : zapCtxCore κ) (entry : Entry)
    (fields : List Field) (w : World κ β) :
    zcc.Write B entry fields w = (none, w) ∨
    ∃ sent w1, w1.backend = w.backend ∧ w1.calls = w.calls ∧
      zcc.Write B entry fields w = callWrite B zcc.core entry sent w1 := by
  cases hctx : zcc.context with
  | none => exact Or.inr ⟨fields, w, rfl, rfl, Write_nil B zcc entry fields w hctx⟩
  | some ctx =>
    by_cases hidle : ∀ r, ctx.span = some r → (w.spans r).recording = false
    · exact Or.inl (Write_idle B zcc ctx entry fields w hctx hidle)
    · push_neg at hidle
      obtain ⟨r, hspan, hrec⟩ := hidle
      have hrec' : (w.spans r).recording = true := by simpa using hrec
      refine Or.inr ⟨_, _, ?_, ?_, Write_recording B zcc ctx r entry fields w hctx hspan hrec'⟩
      · by_cases hlvl : entry.Level ≥ ErrorLevel <;> simp [hlvl, callSpan]
      · by_cases hlvl : entry.Level ≥ ErrorLevel <;> simp [hlvl, callSpan]

/-- The events of a recording span after one `Write`. -/
theorem Write_recording_events {κ β : Type} (B : Backend κ β) (zcc : zapCtxCore κ) (ctx : Context)
    (r : SpanRef) (entry : Entry) (fields : List Field) (w : World κ β)
    (hctx : zcc.context = some ctx) (hspan : ctx.span = some r)
    (hrec : (w.spans r).recording = true) :
    ((zcc.Write B entry fields w).2.spans r).events =
      (w.spans r).events ++
        [{ Name := "log",
           Attributes :=
             [{ Key := "log.severity", Value := AttrValue.STRING entry.Level.String },
              { Key := "log.message", Value := AttrValue.STRING entry.Message }],
           Time := none }] := by
  rw [Write_recording_span B zcc ctx r entry fields w hctx hspan hrec]
  by_cases hlvl : entry.Level ≥ ErrorLevel <;>
    simp [hlvl, Span.events, List.filterMap_append, SpanCall.event?, optionAttributes,
      optionTimestamp]

/-! ## The claims about `Write` -/

/-- C1: on an adapter bound to a context whose span is recording, `Write` invokes the wrapped
core's `Write` exactly once, with the same entry and with the original fields followed by the
string fields `traceId` and `spanId` holding the span's identifiers in lower-case hex, and it
returns the wrapped core's result. -/
theorem Write_recording_delegates_enriched {κ β : Type} (B : Backend κ β) (zcc : zapCtxCore κ)
    (ctx : Context) (r : SpanRef) (entry : Entry) (fs : List Field) (w : World κ β)
    (hctx : zcc.context = some ctx) (hspan : ctx.span = some r)
    (hrec : (w.spans r).recording = true) :
    let enriched := fs ++
      [{ Key := "traceId", Type_ := StringType, Integer := 0,
         String := hexEncode (w.spans r).spanContext.TraceID.bytes },
       { Key := "spanId", Type_ := StringType, Integer := 0,
         String := hexEncode (w.spans r).spanContext.SpanID.bytes }]
    (zcc.Write B entry fs w).1 = (B.Write zcc.core entry enriched w.backend).1 ∧
    (zcc.Write B entry fs w).2.backend = (B.Write zcc.core entry enriched w.backend).2 ∧
    (zcc.Write B entry fs w).2.calls = w.calls ++ [BackendCall.Write zcc.core entry enriched] := by
  intro enriched
  rw [Write_recording B zcc ctx r entry fs w hctx hspan hrec]
  by_cases hlvl : entry.Level ≥ ErrorLevel <;> simp [hlvl, callWrite, callSpan, enriched]

theorem Write_recording_delegates_enriched_witness :
    (tracedCore.Write stubBackend (sampleEntry InfoLevel "started")
        [zap.String "path" "/"] (sampleWorld 2)).1 = some "disk full" ∧
    (tracedCore.Write stubBackend (sampleEntry InfoLevel "started")
        [zap.String "path" "/"] (sampleWorld 2)).2.backend = 3 ∧
    (tracedCore.Write stubBackend (sampleEntry InfoLevel "started")
        [zap.String "path" "/"] (sampleWorld 2)).2.calls =
      [BackendCall.Write [] (sampleEntry InfoLevel "started")
        [zap.String "path" "/",
         zap.String "traceId" "abcd000102030405060708090a0b0c0d",
         zap.String "spanId" "1234000102030405"]] :=
  Write_recording_delegates_enriched stubBackend tracedCore { span := some 0 } 0
    (sampleEntry InfoLevel "started") [zap.String "path" "/"] (sampleWorld 2) rfl rfl rfl

/-- C2: on an adapter bound to a context whose span is absent or not recording, `Write`
returns nil and changes nothing: the wrapped core is not invoked, and no span receives an event
or a status. -/
theorem Write_not_recording_suppressed {κ β : Type} (B : Backend κ β) (zcc : zapCtxCore κ)
    (ctx : Context) (entry : Entry) (fs : List Field) (w : World κ β)
    (hctx : zcc.context = some ctx)
    (hidle : ctx.span = none ∨ ∃ r, ctx.span = some r ∧ (w.spans r).recording = false) :
    (zcc.Write B entry fs w).1 = none ∧
    (zcc.Write B entry fs w).2.calls = w.calls ∧
    (zcc.Write B entry fs w).2.backend = w.backend ∧
    (zcc.Write B entry fs w).2.spans = w.spans := by
  have h : zcc.Write B entry fs w = (none, w) := by
    apply Write_idle B zcc ctx entry fs w hctx
    intro r hr
    rcases hidle with hnone | ⟨r', hr', hoff⟩
    · rw [hnone] at hr; cases hr
    · rw [hr'] at hr; cases hr; exact hoff
  simp [h]

theorem Write_not_recording_suppressed_witness :
    ((idleCore.Write stubBackend (sampleEntry ErrorLevel "failed") [] (sampleWorld 0)).1 = none ∧
      (idleCore.Write stubBackend (sampleEntry ErrorLevel "failed") [] (sampleWorld 0)).2.calls
        = [] ∧
      (idleCore.Write stubBackend (sampleEntry ErrorLevel "failed") [] (sampleWorld 0)).2.backend
        = 0 ∧
      (idleCore.Write stubBackend (sampleEntry ErrorLevel "failed") [] (sampleWorld 0)).2.spans
        = sampleSpans) ∧
    (spanlessCore.Write stubBackend (sampleEntry ErrorLevel "failed") [] (sampleWorld 0)).1
      = none :=
  ⟨Write_not_recording_suppressed stubBackend idleCore { span := some 1 }
      (sampleEntry ErrorLevel "failed") [] (sampleWorld 0) rfl (Or.inr ⟨1, rfl, rfl⟩),
   (Write_not_recording_suppressed stubBackend spanlessCore { span := none }
      (sampleEntry ErrorLevel "failed") [] (sampleWorld 0) rfl (Or.inl rfl)).1⟩

/-- C3: on an adapter constructed with a nil context, `Write` invokes the wrapped core's
`Write` exactly once with the same entry and exactly the given fields, returns its result, and
leaves every span as it was. -/
theorem Write_nil_context_passthrough {κ β : Type} (B : Backend κ β) (zcc : zapCtxCore κ)
    (entry : Entry) (fs : List Field) (w : World κ β) (hctx : zcc.context = none) :
    (zcc.Write B entry fs w).1 = (B.Write zcc.core entry fs w.backend).1 ∧
    (zcc.Write B entry fs w).2.backend = (B.Write zcc.core entry fs w.backend).2 ∧
    (zcc.Write B entry fs w).2.calls = w.calls ++ [BackendCall.Write zcc.core entry fs] ∧
    (zcc.Write B entry fs w).2.spans = w.spans := by
  rw [Write_nil B zcc entry fs w hctx]
  simp [callWrite]

theorem Write_nil_context_passthrough_witness :
    (plainCore.Write stubBackend (sampleEntry ErrorLevel "failed") [zap.String "path" "/"]
        (sampleWorld 0)).1 = none ∧
    (plainCore.Write stubBackend (sampleEntry ErrorLevel "failed") [zap.String "path" "/"]
        (sampleWorld 0)).2.backend = 1 ∧
    (plainCore.Write stubBackend (sampleEntry ErrorLevel "failed") [zap.String "path" "/"]
        (sampleWorld 0)).2.calls =
      [BackendCall.Write [] (sampleEntry ErrorLevel "failed") [zap.String "path" "/"]] ∧
    (plainCore.Write stubBackend (sampleEntry ErrorLevel "failed") [zap.String "path" "/"]
        (sampleWorld 0)).2.spans = sampleSpans :=
  Write_nil_context_passthrough stubBackend plainCore (sampleEntry ErrorLevel "failed")
    [zap.String "path" "/"] (sampleWorld 0) rfl

/-- C4: on an adapter whose context carries a recording span, one `Write` appends exactly one
event to that span: it is named `log`, has no timestamp override, and carries exactly the
attributes `log.severity`, the name of the entry's level, and `log.message`, the entry's
message; no other span changes. -/
theorem Write_recording_adds_log_event {κ β : Type} (B : Backend κ β) (zcc : zapCtxCore κ)
    (ctx : Context) (r : SpanRef) (entry : Entry) (fs : List Field) (w : World κ β)
    (hctx : zcc.context = some ctx) (hspan : ctx.span = some r)
    (hrec : (w.spans r).recording = true) :
    ((zcc.Write B entry fs w).2.spans r).events =
      (w.spans r).events ++
        [{ Name := "log",
           Attributes :=
             [{ Key := "log.severity", Value := AttrValue.STRING entry.Level.String },
              { Key := "log.message", Value := AttrValue.STRING entry.Message }],
           Time := none }] ∧
    ∀ r', r' ≠ r → (zcc.Write B entry fs w).2.spans r' = w.spans r' := by
  refine ⟨?_, fun r' hne => Write_recording_span_other B zcc ctx r r' entry fs w hctx hspan hrec hne⟩
  rw [Write_recording_span B zcc ctx r entry fs w hctx hspan hrec]
  by_cases hlvl : entry.Level ≥ ErrorLevel <;>
    simp [hlvl, Span.events, List.filterMap_append, SpanCall.event?, optionAttributes,
      optionTimestamp]

theorem Write_recording_adds_log_event_witness :
    ((tracedCore.Write stubBackend (sampleEntry WarnLevel "slow") [] (sampleWorld 0)).2.spans
        0).events =
      [{ Name := "log",
         Attributes := [{ Key := "log.severity", Value := AttrValue.STRING "warn" },
                        { Key := "log.message", Value := AttrValue.STRING "slow" }],
         Time := none }] ∧
    ∀ r', r' ≠ 0 →
      (tracedCore.Write stubBackend (sampleEntry WarnLevel "slow") [] (sampleWorld 0)).2.spans r'
        = sampleSpans r' :=
  Write_recording_adds_log_event stubBackend tracedCore { span := some 0 } 0
    (sampleEntry WarnLevel "slow") [] (sampleWorld 0) rfl rfl rfl

/-- C5, as stated, fails: on a recording span whose status is already `Ok`, a `Write` at level
`error` requests the error status, the span ignores the request, and the status stays `Ok`
instead of becoming error with the message as description. -/
theorem Write_recording_status_stays_ok :
    (settledSpans 0).recording = true ∧
    (sampleEntry ErrorLevel "failed: disk full").Level ≥ ErrorLevel ∧
    ((tracedCore.Write stubBackend (sampleEntry ErrorLevel "failed: disk full") []
        { backend := 0, calls := [], spans := settledSpans }).2.spans 0).statusCalls =
      [(Code.Ok, ""), (Code.Error, "failed: disk full")] ∧
    ((tracedCore.Write stubBackend (sampleEntry ErrorLevel "failed: disk full") []
        { backend := 0, calls := [], spans := settledSpans }).2.spans 0).status = (Code.Ok, "") ∧
    ((tracedCore.Write stubBackend (sampleEntry ErrorLevel "failed: disk full") []
        { backend := 0, calls := [], spans := settledSpans }).2.spans 0).status ≠
      (Code.Error, "failed: disk full") :=
  ⟨rfl, by decide, rfl, rfl, by decide⟩

/-- C5, amended: on an adapter whose context carries a recording span, one `Write` of an entry
at level `error` or above makes exactly one status request on the span, error with the entry's
message as description; the span's status is then error with that description unless it was
already `Ok`, in which case it stays what it was.  One `Write` of an entry below `error` makes
no status request, and the span's status is what it was. -/
theorem Write_recording_status {κ β : Type} (B : Backend κ β) (zcc : zapCtxCore κ)
    (ctx : Context) (r : SpanRef) (entry : Entry) (fs : List Field) (w : World κ β)
    (hctx : zcc.context = some ctx) (hspan : ctx.span = some r)
    (hrec : (w.spans r).recording = true) :
    (entry.Level ≥ ErrorLevel →
      ((zcc.Write B entry fs w).2.spans r).statusCalls =
        (w.spans r).statusCalls ++ [(Code.Error, entry.Message)] ∧
      ((w.spans r).status.1 ≠ Code.Ok →
        ((zcc.Write B entry fs w).2.spans r).status = (Code.Error, entry.Message)) ∧
      ((w.spans r).status.1 = Code.Ok →
        ((zcc.Write B entry fs w).2.spans r).status = (w.spans r).status)) ∧
    (entry.Level < ErrorLevel →
      ((zcc.Write B entry fs w).2.spans r).statusCalls = (w.spans r).statusCalls ∧
      ((zcc.Write B entry fs w).2.spans r).status = (w.spans r).status) := by
  rw [Write_recording_span B zcc ctx r entry fs w hctx hspan hrec]
  constructor
  · intro hlvl
    have hcalls : (Span.mk true (w.spans r).spanContext
        ((w.spans r).calls ++
          (SpanCall.AddEvent "log"
            [EventOption.WithAttributes
              [{ Key := "log.severity", Value := AttrValue.STRING entry.Level.String },
               { Key := "log.message", Value := AttrValue.STRING entry.Message }]] ::
           if entry.Level ≥ ErrorLevel then [SpanCall.SetStatus Code.Error entry.Message]
           else []))).statusCalls =
        (w.spans r).statusCalls ++ [(Code.Error, entry.Message)] := by
      simp [hlvl, Span.statusCalls, List.filterMap_append, SpanCall.status?]
    refine ⟨hcalls, ?_, ?_⟩
    · intro hne
      unfold Span.status at hne ⊢
      rw [hcalls, List.foldl_append]
      generalize List.foldl applyStatus (Code.Unset, "") (w.spans r).statusCalls = cur at hne
      obtain ⟨code, desc⟩ := cur
      cases code <;> simp_all [applyStatus, Code.rank]
    · intro hok
      unfold Span.status at hok ⊢
      rw [hcalls, List.foldl_append]
      generalize List.foldl applyStatus (Code.Unset, "") (w.spans r).statusCalls = cur at hok
      obtain ⟨code, desc⟩ := cur
      cases code <;> simp_all [applyStatus, Code.rank]
  · intro hlvl
    have hnot : ¬ entry.Level ≥ ErrorLevel := not_le.mpr hlvl
    simp [hnot, Span.status, Span.statusCalls, List.filterMap_append, SpanCall.status?]

theorem Write_recording_status_witness :
    (((tracedCore.Write stubBackend (sampleEntry ErrorLevel "failed: disk full") []
          (sampleWorld 0)).2.spans 0).statusCalls = [(Code.Error, "failed: disk full")] ∧
      ((tracedCore.Write stubBackend (sampleEntry ErrorLevel "failed: disk full") []
          (sampleWorld 0)).2.spans 0).status = (Code.Error, "failed: disk full")) ∧
    ((tracedCore.Write stubBackend (sampleEntry ErrorLevel "failed: disk full") []
        { backend := 0, calls := [], spans := settledSpans }).2.spans 0).status = (Code.Ok, "") ∧
    (((tracedCore.Write stubBackend (sampleEntry InfoLevel "started") []
          (sampleWorld 0)).2.spans 0).statusCalls = [] ∧
      ((tracedCore.Write stubBackend (sampleEntry InfoLevel "started") []
          (sampleWorld 0)).2.spans 0).status = (Code.Unset, "")) :=
  ⟨⟨((Write_recording_status stubBackend tracedCore { span := some 0 } 0
        (sampleEntry ErrorLevel "failed: disk full") [] (sampleWorld 0) rfl rfl rfl).1
        (by decide)).1,
    ((Write_recording_status stubBackend tracedCore { span := some 0 } 0
        (sampleEntry ErrorLevel "failed: disk full") [] (sampleWorld 0) rfl rfl rfl).1
        (by decide)).2.1 (by decide)⟩,
   ((Write_recording_status stubBackend tracedCore { span := some 0 } 0
      (sampleEntry ErrorLevel "failed: disk full") []
      { backend := 0, calls := [], spans := settledSpans } rfl rfl rfl).1
      (by decide)).2.2 rfl,
   (Write_recording_status stubBackend tracedCore { span := some 0 } 0
      (sampleEntry InfoLevel "started") [] (sampleWorld 0) rfl rfl rfl).2 (by decide)⟩

/-! ## The claims about `Check`, `Sync` and `With` -/

/-- C6: when the wrapped core's `Enabled` accepts the entry's level, `Check` returns the checked
entry with the adapter itself appended to its cores (a fresh checked entry for this entry when
the given one is nil) and makes no call on the wrapped core; otherwise `Check` makes exactly one
call of the wrapped core's `Check`, on the same entry and checked entry, and returns its result
as it is, adding nothing. -/
theorem Check_registers_or_delegates {κ β : Type} (B : Backend κ β) (zcc : zapCtxCore κ)
    (entry : Entry) (checked : Option (CheckedEntry κ)) (w : World κ β) :
    (B.Enabled zcc.core entry.Level w.backend = true →
      (∃ ce, (zcc.Check B entry checked w).1 = some ce ∧
        ce.cores = (match checked with
                    | none => []
                    | some old => old.cores) ++ [RegCore.adapter zcc] ∧
        ce.Entry = (match checked with
                    | none => entry
                    | some old => old.Entry)) ∧
      (zcc.Check B entry checked w).2.calls = w.calls ∧
      (zcc.Check B entry checked w).2.backend = w.backend ∧
      (zcc.Check B entry checked w).2.spans = w.spans) ∧
    (B.Enabled zcc.core entry.Level w.backend = false →
      (zcc.Check B entry checked w).1 = (B.Check zcc.core entry checked w.backend).1 ∧
      (zcc.Check B entry checked w).2.backend = (B.Check zcc.core entry checked w.backend).2 ∧
      (zcc.Check B entry checked w).2.calls =
        w.calls ++ [BackendCall.Check zcc.core entry checked] ∧
      (zcc.Check B entry checked w).2.spans = w.spans) := by
  constructor
  · intro hon
    cases checked <;> simp [zapCtxCore.Check, zapCtxCore.Enabled, hon, AddCore]
  · intro hoff
    simp [zapCtxCore.Check, zapCtxCore.Enabled, hoff, callCheck]

theorem Check_registers_or_delegates_witness :
    ((∃ ce, (tracedCore.Check stubBackend (sampleEntry InfoLevel "started") none
          (sampleWorld 0)).1 = some ce ∧
        ce.cores = [RegCore.adapter tracedCore] ∧ ce.Entry = sampleEntry InfoLevel "started") ∧
      (tracedCore.Check stubBackend (sampleEntry InfoLevel "started") none
          (sampleWorld 0)).2.calls = [] ∧
      (tracedCore.Check stubBackend (sampleEntry InfoLevel "started") none
          (sampleWorld 0)).2.backend = 0 ∧
      (tracedCore.Check stubBackend (sampleEntry InfoLevel "started") none
          (sampleWorld 0)).2.spans = sampleSpans) ∧
    ((tracedCore.Check stubBackend (sampleEntry DebugLevel "noise") none
          (sampleWorld 0)).1 = none ∧
      (tracedCore.Check stubBackend (sampleEntry DebugLevel "noise") none
          (sampleWorld 0)).2.backend = 0 ∧
      (tracedCore.Check stubBackend (sampleEntry DebugLevel "noise") none
          (sampleWorld 0)).2.calls =
        [BackendCall.Check [] (sampleEntry DebugLevel "noise") none] ∧
      (tracedCore.Check stubBackend (sampleEntry DebugLevel "noise") none
          (sampleWorld 0)).2.spans = sampleSpans) :=
  ⟨(Check_registers_or_delegates stubBackend tracedCore (sampleEntry InfoLevel "started") none
      (sampleWorld 0)).1 (by decide),
   (Check_registers_or_delegates stubBackend tracedCore (sampleEntry DebugLevel "noise") none
      (sampleWorld 0)).2 (by decide)⟩

/-- C8: the adapter adds no error of its own.  Whenever `Write` returns a non-nil error, that
call invoked the wrapped core's `Write` exactly once and the error is the one it returned; and
`Sync` is exactly one call of the wrapped core's `Sync`, whose result it returns. -/
theorem errors_are_the_backends {κ β : Type} (B : Backend κ β) (zcc : zapCtxCore κ)
    (entry : Entry) (fs : List Field) (w : World κ β) :
    ((zcc.Write B entry fs w).1 ≠ none →
      ∃ sent, (zcc.Write B entry fs w).2.calls = w.calls ++ [BackendCall.Write zcc.core entry sent] ∧
        (B.Write zcc.core entry sent w.backend).1 = (zcc.Write B entry fs w).1) ∧
    ((zcc.Sync B w).1 = (B.Sync zcc.core w.backend).1 ∧
      (zcc.Sync B w).2.backend = (B.Sync zcc.core w.backend).2 ∧
      (zcc.Sync B w).2.calls = w.calls ++ [BackendCall.Sync zcc.core] ∧
      (zcc.Sync B w).2.spans = w.spans) := by
  constructor
  · intro herr
    rcases Write_cases B zcc entry fs w with hnone | ⟨sent, w1, hb, hc, hw⟩
    · rw [hnone] at herr; exact absurd rfl herr
    · exact ⟨sent, by simp [hw, callWrite, hc], by simp [hw, callWrite, hb]⟩
  · simp [zapCtxCore.Sync, callSync]

theorem errors_are_the_backends_witness :
    (tracedCore.Write stubBackend (sampleEntry InfoLevel "started") [] (sampleWorld 2)).1
      = some "disk full" ∧
    (∃ sent,
      (tracedCore.Write stubBackend (sampleEntry InfoLevel "started") [] (sampleWorld 2)).2.calls
        = [] ++ [BackendCall.Write [] (sampleEntry InfoLevel "started") sent] ∧
      (stubBackend.Write [] (sampleEntry InfoLevel "started") sent 2).1 =
        (tracedCore.Write stubBackend (sampleEntry InfoLevel "started") [] (sampleWorld 2)).1) ∧
    ((tracedCore.Sync stubBackend (sampleWorld 3)).1 = some "sync failed" ∧
      (tracedCore.Sync stubBackend (sampleWorld 3)).2.backend = 3 ∧
      (tracedCore.Sync stubBackend (sampleWorld 3)).2.calls = [BackendCall.Sync []] ∧
      (tracedCore.Sync stubBackend (sampleWorld 3)).2.spans = sampleSpans) :=
  ⟨rfl,
   (errors_are_the_backends stubBackend tracedCore (sampleEntry InfoLevel "started") []
      (sampleWorld 2)).1 (by decide),
   (errors_are_the_backends stubBackend tracedCore (sampleEntry InfoLevel "started") []
      (sampleWorld 3)).2⟩

/-- C9: `With` returns an adapter that wraps the wrapped core's `With` result and keeps the
context.  A `Write` on it has the span effects of the same `Write` on the original, and either
both are suppressed, or both call `Write` exactly once with the same entry and the same fields
sent, the derived adapter on the derived core and the original on the original core. -/
theorem With_keeps_context_behaviour {κ β : Type} (B : Backend κ β) (zcc : zapCtxCore κ)
    (fs : List Field) :
    (zcc.With B fs).core = B.With zcc.core fs ∧
    (zcc.With B fs).context = zcc.context ∧
    ∀ (entry : Entry) (fs2 : List Field) (w : World κ β),
      ((zcc.With B fs).Write B entry fs2 w).2.spans = (zcc.Write B entry fs2 w).2.spans ∧
      ((zcc.Write B entry fs2 w = (none, w) ∧ (zcc.With B fs).Write B entry fs2 w = (none, w)) ∨
       ∃ sent,
        (zcc.Write B entry fs2 w).2.calls = w.calls ++ [BackendCall.Write zcc.core entry sent] ∧
        ((zcc.With B fs).Write B entry fs2 w).2.calls =
          w.calls ++ [BackendCall.Write (B.With zcc.core fs) entry sent] ∧
        (zcc.Write B entry fs2 w).1 = (B.Write zcc.core entry sent w.backend).1 ∧
        ((zcc.With B fs).Write B entry fs2 w).1 =
          (B.Write (B.With zcc.core fs) entry sent w.backend).1 ∧
        (zcc.Write B entry fs2 w).2.backend = (B.Write zcc.core entry sent w.backend).2 ∧
        ((zcc.With B fs).Write B entry fs2 w).2.backend =
          (B.Write (B.With zcc.core fs) entry sent w.backend).2) := by
  refine ⟨rfl, rfl, ?_⟩
  intro entry fs2 w
  have hchild : (zcc.With B fs).context = zcc.context := rfl
  have hcore : (zcc.With B fs).core = B.With zcc.core fs := rfl
  cases hctx : zcc.context with
  | none =>
    rw [Write_nil B zcc entry fs2 w hctx, Write_nil B _ entry fs2 w (hchild.trans hctx), hcore]
    exact ⟨rfl, Or.inr ⟨fs2, rfl, rfl, rfl, rfl, rfl, rfl⟩⟩
  | some ctx =>
    by_cases hidle : ∀ r, ctx.span = some r → (w.spans r).recording = false
    · rw [Write_idle B zcc ctx entry fs2 w hctx hidle,
        Write_idle B _ ctx entry fs2 w (hchild.trans hctx) hidle]
      exact ⟨rfl, Or.inl ⟨rfl, rfl⟩⟩
    · push_neg at hidle
      obtain ⟨r, hspan, hrec⟩ := hidle
      have hrec' : (w.spans r).recording = true := by simpa using hrec
      rw [Write_recording B zcc ctx r entry fs2 w hctx hspan hrec',
        Write_recording B _ ctx r entry fs2 w (hchild.trans hctx) hspan hrec', hcore]
      refine ⟨rfl, Or.inr
        ⟨fs2 ++ [{ Key := "traceId", Type_ := StringType, Integer := 0,
                   String := hexEncode (w.spans r).spanContext.TraceID.bytes },
                 { Key := "spanId", Type_ := StringType, Integer := 0,
                   String := hexEncode (w.spans r).spanContext.SpanID.bytes }],
         ?_, ?_, ?_, ?_, ?_, ?_⟩⟩ <;>
        by_cases hlvl : entry.Level ≥ ErrorLevel <;> simp [hlvl, callWrite, callSpan]

/-! ## The claims about logging through the adapter -/

/-- C7, as stated, fails: the wrapped core's level filter rejects the level, the adapter's
`Check` hands the decision to the wrapped core's `Check`, that one registers the wrapped core,
and the wrapped core's `Write` is invoked. -/
theorem logThrough_rejected_reaches_backend :
    eagerBackend.Enabled () DPanicLevel 0 = false ∧
    (logThrough eagerBackend { core := (), context := none }
        (sampleEntry DPanicLevel "unreachable") [zap.String "path" "/"]
        { backend := 0, calls := [], spans := sampleSpans }).calls =
      [BackendCall.Check () (sampleEntry DPanicLevel "unreachable") none,
       BackendCall.Write () (sampleEntry DPanicLevel "unreachable") [zap.String "path" "/"]] ∧
    writesOf (logThrough eagerBackend { core := (), context := none }
        (sampleEntry DPanicLevel "unreachable") [zap.String "path" "/"]
        { backend := 0, calls := [], spans := sampleSpans }).calls =
      [((), sampleEntry DPanicLevel "unreachable", [zap.String "path" "/"])] :=
  ⟨rfl, rfl, rfl⟩

/-- C7, amended: when the wrapped core's level filter rejects the record's level and the wrapped
core's own `Check` registers no core for it, logging the record through the adapter makes
exactly one backend call, that `Check`; no `Write` of the wrapped core is invoked, the
backend state is the one that `Check` left, and no span changes. -/
theorem logThrough_rejected_no_write {κ β : Type} (B : Backend κ β) (zcc : zapCtxCore κ)
    (entry : Entry) (fs : List Field) (w : World κ β)
    (hoff : B.Enabled zcc.core entry.Level w.backend = false)
    (hcheck : ∀ ce, (B.Check zcc.core entry none w.backend).1 = some ce → ce.cores = []) :
    (logThrough B zcc entry fs w).calls = w.calls ++ [BackendCall.Check zcc.core entry none] ∧
    writesOf (logThrough B zcc entry fs w).calls = writesOf w.calls ∧
    (logThrough B zcc entry fs w).backend = (B.Check zcc.core entry none w.backend).2 ∧
    (logThrough B zcc entry fs w).spans = w.spans := by
  have hlog : logThrough B zcc entry fs w =
      { backend := (B.Check zcc.core entry none w.backend).2,
        calls := w.calls ++ [BackendCall.Check zcc.core entry none],
        spans := w.spans } := by
    cases hres : (B.Check zcc.core entry none w.backend).1 with
    | none =>
      simp [logThrough, zapCtxCore.Check, zapCtxCore.Enabled, hoff, callCheck, hres,
        CheckedEntry.Write]
    | some ce =>
      simp [logThrough, zapCtxCore.Check, zapCtxCore.Enabled, hoff, callCheck, hres,
        CheckedEntry.Write, hcheck ce hres, writeCores]
  rw [hlog]
  simp [writesOf, List.filterMap_append]

theorem logThrough_rejected_no_write_witness :
    (logThrough stubBackend tracedCore (sampleEntry DebugLevel "noise") [] (sampleWorld 0)).calls
      = [BackendCall.Check [] (sampleEntry DebugLevel "noise") none] ∧
    writesOf (logThrough stubBackend tracedCore (sampleEntry DebugLevel "noise") []
      (sampleWorld 0)).calls = [] ∧
    (logThrough stubBackend tracedCore (sampleEntry DebugLevel "noise") [] (sampleWorld 0)).backend
      = 0 ∧
    (logThrough stubBackend tracedCore (sampleEntry DebugLevel "noise") [] (sampleWorld 0)).spans
      = sampleSpans :=
  logThrough_rejected_no_write stubBackend tracedCore (sampleEntry DebugLevel "noise") []
    (sampleWorld 0) (by decide) (by intro ce h; cases h)

/-- C10: a finite sequence of `Write` calls on one adapter bound to a recording span makes
exactly one backend `Write` and appends exactly one `log` event per call, both in call order:
the backend calls added are the calls' entries with their fields and the two identifier fields,
and the events added carry the calls' level names and messages, one for one. -/
theorem writeAll_in_call_order {κ β : Type} (B : Backend κ β) (zcc : zapCtxCore κ)
    (ctx : Context) (r : SpanRef) (recs : List (Entry × List Field)) (w : World κ β)
    (hctx : zcc.context = some ctx) (hspan : ctx.span = some r)
    (hrec : (w.spans r).recording = true) :
    (writeAll B zcc recs w).2.calls =
      w.calls ++ recs.map (fun rec =>
        BackendCall.Write zcc.core rec.1
          (rec.2 ++ [{ Key := "traceId", Type_ := StringType, Integer := 0,
                       String := hexEncode (w.spans r).spanContext.TraceID.bytes },
                     { Key := "spanId", Type_ := StringType, Integer := 0,
                       String := hexEncode (w.spans r).spanContext.SpanID.bytes }])) ∧
    ((writeAll B zcc recs w).2.spans r).events =
      (w.spans r).events ++ recs.map (fun rec =>
        { Name := "log",
          Attributes :=
            [{ Key := "log.severity", Value := AttrValue.STRING rec.1.Level.String },
             { Key := "log.message", Value := AttrValue.STRING rec.1.Message }],
          Time := none }) := by
  induction recs generalizing w with
  | nil => simp [writeAll]
  | cons rec rest ih =>
    have hstep := Write_recording_span B zcc ctx r rec.1 rec.2 w hctx hspan hrec
    have hrec1 : ((zcc.Write B rec.1 rec.2 w).2.spans r).recording = true := by rw [hstep]
    have hsc : ((zcc.Write B rec.1 rec.2 w).2.spans r).spanContext = (w.spans r).spanContext := by
      rw [hstep]
    have hcalls := Write_recording_calls B zcc ctx r rec.1 rec.2 w hctx hspan hrec
    have hevents := Write_recording_events B zcc ctx r rec.1 rec.2 w hctx hspan hrec
    have h := ih (zcc.Write B rec.1 rec.2 w).2 hrec1
    rw [hsc, hcalls, hevents] at h
    simpa [writeAll, List.append_assoc] using h

theorem writeAll_in_call_order_witness :
    (writeAll stubBackend tracedCore
        [(sampleEntry InfoLevel "started", [zap.String "path" "/"]),
         (sampleEntry ErrorLevel "failed: disk full", [])] (sampleWorld 0)).2.calls =
      [BackendCall.Write [] (sampleEntry InfoLevel "started")
         [zap.String "path" "/",
          zap.String "traceId" "abcd000102030405060708090a0b0c0d",
          zap.String "spanId" "1234000102030405"],
       BackendCall.Write [] (sampleEntry ErrorLevel "failed: disk full")
         [zap.String "traceId" "abcd000102030405060708090a0b0c0d",
          zap.String "spanId" "1234000102030405"]] ∧
    ((writeAll stubBackend tracedCore
        [(sampleEntry InfoLevel "started", [zap.String "path" "/"]),
         (sampleEntry ErrorLevel "failed: disk full", [])] (sampleWorld 0)).2.spans 0).events =
      [{ Name := "log",
         Attributes := [{ Key := "log.severity", Value := AttrValue.STRING "info" },
                        { Key := "log.message", Value := AttrValue.STRING "started" }],
         Time := none },
       { Name := "log",
         Attributes := [{ Key := "log.severity", Value := AttrValue.STRING "error" },
                        { Key := "log.message", Value := AttrValue.STRING "failed: disk full" }],
         Time := none }] :=
  writeAll_in_call_order stubBackend tracedCore { span := some 0 } 0
    [(sampleEntry InfoLevel "started", [zap.String "path" "/"]),
     (sampleEntry ErrorLevel "failed: disk full", [])] (sampleWorld 0) rfl rfl rfl

end logger
